import Mathlib

/-!
Shallow embedding of `src/dvdlogo.go` (package main, github.com/rnts08/godvdscreensaver).

The program is a bouncing-logo screensaver built on the ebiten game framework.
Its core is the `Game` struct together with `Game.Update` and
`Game.handleKeyPresses`.  Rendering (`Draw`, `drawPauseMenu`,
`updateWindowTitle`, `Layout`) only reads state and is not modelled.

Modelling decisions:
- Go `float64` fields (`logoX`, `logoY`, `velocityX`, `velocityY`,
  `logoHeight`) become `ℚ`; all arithmetic in `Update` is exact on the
  values that occur (small sums, products and divisions by 1000), and no
  claim depends on float rounding, infinities or NaN.
- Go `int` `cornerHits` becomes `ℤ` (64-bit overflow is unreachable on any
  run of interest: the counter gains at most 1 per frame).
- `keyState map[ebiten.Key]bool` is read for exactly three keys
  (Escape, C, Q); a missing entry reads as `false`, matching the Go map
  zero value, so it is embedded as three `Bool` fields initially `false`.
- The per-tick inputs polled from ebiten (`IsKeyPressed` for the three keys,
  `IsMouseButtonPressed`, `CursorPosition`) are gathered in an `Input`
  record supplied to each tick.
- The Go return value of `Update` (`nil` or `ebiten.Termination`) becomes a
  `Bool` paired with the next state: `true` means `ebiten.Termination`
  was returned, which makes the host loop stop.
-/

/-- Per-tick inputs polled from the ebiten framework inside `Update` and
`handleKeyPresses`: the raw down-state of the Escape, C and Q keys, the
left-mouse-button state, and the cursor position (ebiten reports ints). -/
structure Input where
  escDown : Bool
  cDown : Bool
  qDown : Bool
  mouseDown : Bool
  cursorX : ℤ
  cursorY : ℤ
  deriving DecidableEq, Repr

/-- The `Game` struct of dvdlogo.go, minus the fields the core logic never
reads (`startTime`, `logoImage`).  The `keyState` map is represented by the
three entries the program ever touches. -/
structure Game where
  logoX : ℚ
  logoY : ℚ
  velocityX : ℚ
  velocityY : ℚ
  cornerHits : ℤ
  logoHeight : ℚ
  hitCorner : Bool
  paused : Bool
  terminated : Bool
  keyEsc : Bool
  keyC : Bool
  keyQ : Bool
  deriving DecidableEq, Repr

/-- Constant block of dvdlogo.go. -/
def screenWidth : ℚ := 800

/-- Constant block of dvdlogo.go. -/
def screenHeight : ℚ := 600

/-- Constant block of dvdlogo.go. -/
def logoWidth : ℚ := 120

/-- Constant block of dvdlogo.go. -/
def logoStartVelocity : ℚ := 2

/-- Constant block of dvdlogo.go. -/
def logoMaxVelocity : ℚ := 3

/-- Constant block of dvdlogo.go. -/
def cornerTolerance : ℚ := 5

/-- Constant block of dvdlogo.go (`nudgeAmount = 0.5`). -/
def nudgeAmount : ℚ := 1 / 2

/-- Model of `math.Copysign x y`: `|x|` carrying the sign of `y`.  It is only
invoked by the program with `y ≠ 0`, so the `ℚ`-vs-float difference on
negative zero never arises. -/
def copysign (x y : ℚ) : ℚ :=
  if y < 0 then -|x| else |x|

/-- Lines 110-117 of `handleKeyPresses`: edge-triggered Escape toggles
`paused`, and the was-down flag for Escape is refreshed. -/
def handleEscape (g : Game) (inp : Input) : Game :=
  if inp.escDown then
    let g1 := if !g.keyEsc then { g with paused := !g.paused } else g
    { g1 with keyEsc := true }
  else
    { g with keyEsc := false }

/-- Lines 121-128 of `handleKeyPresses`: while the paused block is active,
an edge-triggered C press clears `paused`. -/
def handleContinue (g : Game) (inp : Input) : Game :=
  if inp.cDown then
    let g1 := if !g.keyC then { g with paused := false } else g
    { g1 with keyC := true }
  else
    { g with keyC := false }

/-- Lines 131-136 of `handleKeyPresses`: while the paused block is active,
a raw (not edge-triggered) Q down sets `terminated`. -/
def handleQuit (g : Game) (inp : Input) : Game :=
  if inp.qDown then
    { g with terminated := true, keyQ := true }
  else
    { g with keyQ := false }

/-- Method `Game.handleKeyPresses` (lines 108-138): Escape handling first, then —
if `paused` holds after the Escape handling — the C and Q handlers run in
that order inside the same `if g.paused` block. -/
def handleKeyPresses (g : Game) (inp : Input) : Game :=
  let g1 := handleEscape g inp
  if g1.paused then handleQuit (handleContinue g1 inp) inp else g1

/-- Lines 58-60 of `Update`: Euler step `position += velocity` and the
per-tick reset `hitCorner = false`. -/
def integrate (g : Game) : Game :=
  { g with
    logoX := g.logoX + g.velocityX
    logoY := g.logoY + g.velocityY
    hitCorner := false }

/-- Lines 63-70 of `Update`: the left and right border checks, clamping
`logoX` and negating `velocityX`. -/
def collideX (g : Game) : Game :=
  let g1 := if g.logoX < 0 then { g with logoX := 0, velocityX := -g.velocityX } else g
  if g1.logoX + logoWidth > screenWidth then
    { g1 with logoX := screenWidth - logoWidth, velocityX := -g1.velocityX }
  else g1

/-- Lines 71-78 of `Update`: the top and bottom border checks, clamping
`logoY` and negating `velocityY`. -/
def collideY (g : Game) : Game :=
  let g1 := if g.logoY < 0 then { g with logoY := 0, velocityY := -g.velocityY } else g
  if g1.logoY + g1.logoHeight > screenHeight then
    { g1 with logoY := screenHeight - g1.logoHeight, velocityY := -g1.velocityY }
  else g1

/-- Lines 63-78 of `Update`: the four border checks in source order
(left, right, top, bottom).  The x checks never read the y fields and vice
versa, so the sequence of four ifs is exactly `collideY` after `collideX`. -/
def collideWalls (g : Game) : Game :=
  collideY (collideX g)

/-- The corner condition of lines 81-82: the post-collision x is inside the
tolerance band of the left or right edge, and y inside the band of the top
or bottom edge. -/
def inCornerBand (x y h : ℚ) : Prop :=
  (x < cornerTolerance ∨ x > screenWidth - logoWidth - cornerTolerance) ∧
    (y < cornerTolerance ∨ y > screenHeight - h - cornerTolerance)

instance (x y h : ℚ) : Decidable (inCornerBand x y h) := by
  unfold inCornerBand; infer_instance

/-- Lines 81-86 of `Update`: when the corner condition holds, increment
`cornerHits` and set `hitCorner`. -/
def cornerCheck (g : Game) : Game :=
  if inCornerBand g.logoX g.logoY g.logoHeight then
    { g with cornerHits := g.cornerHits + 1, hitCorner := true }
  else g

/-- Lines 89-103 of `Update`: while the left mouse button is held, nudge the
velocity toward the cursor by `(cursor - logoCenter) * nudgeAmount / 1000`
per axis, then clamp each component to `logoMaxVelocity` with `Copysign`. -/
def applyNudge (g : Game) (inp : Input) : Game :=
  if inp.mouseDown then
    let dx := (inp.cursorX : ℚ) - (g.logoX + logoWidth / 2)
    let dy := (inp.cursorY : ℚ) - (g.logoY + g.logoHeight / 2)
    let vx := g.velocityX + dx * nudgeAmount / 1000
    let vy := g.velocityY + dy * nudgeAmount / 1000
    let vx1 := if |vx| > logoMaxVelocity then copysign logoMaxVelocity vx else vx
    let vy1 := if |vy| > logoMaxVelocity then copysign logoMaxVelocity vy else vy
    { g with velocityX := vx1, velocityY := vy1 }
  else g

/-- Method `Game.Update` (lines 47-106).  The returned `Bool` is `true` exactly
when the Go method returns `ebiten.Termination` (line 53), which ends the
host game loop; `false` is the `nil` return. -/
def Update (g : Game) (inp : Input) : Game × Bool :=
  let g1 := handleKeyPresses g inp
  if g1.paused then
    (g1, g1.terminated)
  else
    (applyNudge (cornerCheck (collideWalls (integrate g1))) inp, false)

/-- Iterated ticks of the game loop: the state after feeding a list of
per-tick inputs through `Update`. -/
def runSteps : Game → List Input → Game
  | g, [] => g
  | g, i :: is => runSteps (Update g i).fst is

/-- The `Game` literal built in `main` (lines 213-222): the random spawn
position and the image-derived logo height are parameters; velocity starts
at `(logoStartVelocity, logoStartVelocity)`, counters and flags at their
zero values, and the `keyState` map empty (every lookup `false`). -/
def initGame (x y h : ℚ) : Game :=
  { logoX := x
    logoY := y
    velocityX := logoStartVelocity
    velocityY := logoStartVelocity
    cornerHits := 0
    logoHeight := h
    hitCorner := false
    paused := false
    terminated := false
    keyEsc := false
    keyC := false
    keyQ := false }

/-- Position invariant from the spec: the top-left corner of the logo lies in
`[0, screenWidth - logoWidth] × [0, screenHeight - logoHeight]`. -/
def inBounds (g : Game) : Prop :=
  0 ≤ g.logoX ∧ g.logoX ≤ screenWidth - logoWidth ∧
    0 ≤ g.logoY ∧ g.logoY ≤ screenHeight - g.logoHeight

instance (g : Game) : Decidable (inBounds g) := by
  unfold inBounds; infer_instance

/-- Velocity invariant from the spec: each component has magnitude at most
`logoMaxVelocity`. -/
def velBound (g : Game) : Prop :=
  |g.velocityX| ≤ logoMaxVelocity ∧ |g.velocityY| ≤ logoMaxVelocity

instance (g : Game) : Decidable (velBound g) := by
  unfold velBound; infer_instance

/-- An input list keeps the session paused when, on every tick, the state
right after `handleKeyPresses` is still paused (this is the condition
`Update` consults before running any physics). -/
def keepsPaused (g : Game) : List Input → Bool
  | [] => true
  | i :: is => (handleKeyPresses g i).paused && keepsPaused (Update g i).fst is

/-- A tick with no key, mouse or cursor input. -/
def inpNone : Input :=
  { escDown := false, cDown := false, qDown := false, mouseDown := false,
    cursorX := 0, cursorY := 0 }

/-- A tick with only the Escape key down. -/
def inpEsc : Input := { inpNone with escDown := true }

/-- A tick with the C and Q keys both down. -/
def inpCQ : Input := { inpNone with cDown := true, qDown := true }

/-- A freshly started session (position (100, 100), logo height 90) that has
been paused and is receiving no key input. -/
def pausedDemo : Game := { initGame 100 100 90 with paused := true }

/-- An in-bounds state at rest: zero velocity, position (10, 20). -/
def restDemo : Game := { initGame 10 20 90 with velocityX := 0, velocityY := 0 }

/-- An out-of-bounds state at rest: zero velocity, position (-5, 100). -/
def outDemo : Game := { initGame (-5) 100 90 with velocityX := 0, velocityY := 0 }

/-- A state touching the left wall while moving left with speed 2. -/
def leftWallDemo : Game := { initGame 0 300 90 with velocityX := -2 }

/-! Field-preservation lemmas: which fields each source block leaves
unchanged.  Each follows by unfolding the block and pushing the projection
through the conditionals. -/

@[simp] lemma handleKeyPresses_logoX (g : Game) (i : Input) :
    (handleKeyPresses g i).logoX = g.logoX := by
  simp [handleKeyPresses, handleEscape, handleContinue, handleQuit, apply_ite Game.logoX]

@[simp] lemma handleKeyPresses_logoY (g : Game) (i : Input) :
    (handleKeyPresses g i).logoY = g.logoY := by
  simp [handleKeyPresses, handleEscape, handleContinue, handleQuit, apply_ite Game.logoY]

@[simp] lemma handleKeyPresses_velocityX (g : Game) (i : Input) :
    (handleKeyPresses g i).velocityX = g.velocityX := by
  simp [handleKeyPresses, handleEscape, handleContinue, handleQuit, apply_ite Game.velocityX]

@[simp] lemma handleKeyPresses_velocityY (g : Game) (i : Input) :
    (handleKeyPresses g i).velocityY = g.velocityY := by
  simp [handleKeyPresses, handleEscape, handleContinue, handleQuit, apply_ite Game.velocityY]

@[simp] lemma handleKeyPresses_cornerHits (g : Game) (i : Input) :
    (handleKeyPresses g i).cornerHits = g.cornerHits := by
  simp [handleKeyPresses, handleEscape, handleContinue, handleQuit, apply_ite Game.cornerHits]

@[simp] lemma handleKeyPresses_logoHeight (g : Game) (i : Input) :
    (handleKeyPresses g i).logoHeight = g.logoHeight := by
  simp [handleKeyPresses, handleEscape, handleContinue, handleQuit, apply_ite Game.logoHeight]

@[simp] lemma handleKeyPresses_hitCorner (g : Game) (i : Input) :
    (handleKeyPresses g i).hitCorner = g.hitCorner := by
  simp [handleKeyPresses, handleEscape, handleContinue, handleQuit, apply_ite Game.hitCorner]

@[simp] lemma collideX_logoY (g : Game) : (collideX g).logoY = g.logoY := by
  simp [collideX, apply_ite Game.logoY]

@[simp] lemma collideX_velocityY (g : Game) : (collideX g).velocityY = g.velocityY := by
  simp [collideX, apply_ite Game.velocityY]

@[simp] lemma collideX_cornerHits (g : Game) : (collideX g).cornerHits = g.cornerHits := by
  simp [collideX, apply_ite Game.cornerHits]

@[simp] lemma collideX_logoHeight (g : Game) : (collideX g).logoHeight = g.logoHeight := by
  simp [collideX, apply_ite Game.logoHeight]

@[simp] lemma collideX_hitCorner (g : Game) : (collideX g).hitCorner = g.hitCorner := by
  simp [collideX, apply_ite Game.hitCorner]

@[simp] lemma collideY_logoX (g : Game) : (collideY g).logoX = g.logoX := by
  simp [collideY, apply_ite Game.logoX]

@[simp] lemma collideY_velocityX (g : Game) : (collideY g).velocityX = g.velocityX := by
  simp [collideY, apply_ite Game.velocityX]

@[simp] lemma collideY_cornerHits (g : Game) : (collideY g).cornerHits = g.cornerHits := by
  simp [collideY, apply_ite Game.cornerHits]

@[simp] lemma collideY_logoHeight (g : Game) : (collideY g).logoHeight = g.logoHeight := by
  simp [collideY, apply_ite Game.logoHeight]

@[simp] lemma collideY_hitCorner (g : Game) : (collideY g).hitCorner = g.hitCorner := by
  simp [collideY, apply_ite Game.hitCorner]

@[simp] lemma cornerCheck_logoX (g : Game) : (cornerCheck g).logoX = g.logoX := by
  simp [cornerCheck, apply_ite Game.logoX]

@[simp] lemma cornerCheck_logoY (g : Game) : (cornerCheck g).logoY = g.logoY := by
  simp [cornerCheck, apply_ite Game.logoY]

@[simp] lemma cornerCheck_velocityX (g : Game) : (cornerCheck g).velocityX = g.velocityX := by
  simp [cornerCheck, apply_ite Game.velocityX]

@[simp] lemma cornerCheck_velocityY (g : Game) : (cornerCheck g).velocityY = g.velocityY := by
  simp [cornerCheck, apply_ite Game.velocityY]

@[simp] lemma cornerCheck_logoHeight (g : Game) : (cornerCheck g).logoHeight = g.logoHeight := by
  simp [cornerCheck, apply_ite Game.logoHeight]

@[simp] lemma applyNudge_logoX (g : Game) (i : Input) : (applyNudge g i).logoX = g.logoX := by
  simp [applyNudge, apply_ite Game.logoX]

@[simp] lemma applyNudge_logoY (g : Game) (i : Input) : (applyNudge g i).logoY = g.logoY := by
  simp [applyNudge, apply_ite Game.logoY]

@[simp] lemma applyNudge_cornerHits (g : Game) (i : Input) :
    (applyNudge g i).cornerHits = g.cornerHits := by
  simp [applyNudge, apply_ite Game.cornerHits]

@[simp] lemma applyNudge_logoHeight (g : Game) (i : Input) :
    (applyNudge g i).logoHeight = g.logoHeight := by
  simp [applyNudge, apply_ite Game.logoHeight]

@[simp] lemma applyNudge_hitCorner (g : Game) (i : Input) :
    (applyNudge g i).hitCorner = g.hitCorner := by
  simp [applyNudge, apply_ite Game.hitCorner]

lemma applyNudge_mouse_off (g : Game) (i : Input) (hm : i.mouseDown = false) :
    applyNudge g i = g := by
  simp [applyNudge, hm]

@[simp] lemma integrate_logoX (g : Game) : (integrate g).logoX = g.logoX + g.velocityX := rfl

@[simp] lemma integrate_logoY (g : Game) : (integrate g).logoY = g.logoY + g.velocityY := rfl

@[simp] lemma integrate_velocityX (g : Game) : (integrate g).velocityX = g.velocityX := rfl

@[simp] lemma integrate_velocityY (g : Game) : (integrate g).velocityY = g.velocityY := rfl

@[simp] lemma integrate_cornerHits (g : Game) : (integrate g).cornerHits = g.cornerHits := rfl

@[simp] lemma integrate_logoHeight (g : Game) : (integrate g).logoHeight = g.logoHeight := rfl

lemma abs_copysign (x y : ℚ) : |copysign x y| = |x| := by
  unfold copysign
  split_ifs with h
  · rw [abs_neg, abs_abs]
  · rw [abs_abs]

lemma collideX_velocityX_abs (g : Game) : |(collideX g).velocityX| = |g.velocityX| := by
  simp only [collideX]
  split_ifs <;> simp [abs_neg]

lemma collideY_velocityY_abs (g : Game) : |(collideY g).velocityY| = |g.velocityY| := by
  simp only [collideY]
  split_ifs <;> simp [abs_neg]

/-- After the left and right border checks, `logoX` lies in
`[0, screenWidth - logoWidth]`; this needs no hypothesis because the two
clamp targets `0` and `680` are themselves in range. -/
lemma collideX_logoX_bounds (g : Game) :
    0 ≤ (collideX g).logoX ∧ (collideX g).logoX ≤ screenWidth - logoWidth := by
  simp only [collideX, screenWidth, logoWidth]
  split_ifs with h1 h2 h3 <;>
    simp_all <;>
    first
      | (constructor <;> linarith)
      | linarith

/-- After the top and bottom border checks, `logoY` lies in
`[0, screenHeight - logoHeight]`, provided the logo height fits the
viewport. -/
lemma collideY_logoY_bounds (g : Game) (h0 : 0 ≤ g.logoHeight)
    (hh : g.logoHeight ≤ screenHeight) :
    0 ≤ (collideY g).logoY ∧ (collideY g).logoY ≤ screenHeight - g.logoHeight := by
  simp only [collideY, screenHeight] at hh ⊢
  split_ifs with h1 h2 h3 <;>
    simp_all <;>
    first
      | (constructor <;> linarith)
      | linarith

/-- Combined wall-collision bound: the post-collision position is in
bounds whenever the logo height fits the viewport. -/
lemma collideWalls_inBounds (g : Game) (h0 : 0 ≤ g.logoHeight)
    (hh : g.logoHeight ≤ screenHeight) : inBounds (collideWalls g) := by
  unfold collideWalls inBounds
  have hx := collideX_logoX_bounds g
  have hy := collideY_logoY_bounds (collideX g) (by simpa using h0) (by simpa using hh)
  refine ⟨?_, ?_, ?_, ?_⟩
  · rw [collideY_logoX]; exact hx.1
  · rw [collideY_logoX]; exact hx.2
  · exact hy.1
  · rw [collideY_logoHeight, collideX_logoHeight]
    simpa using hy.2

/-- When the state is paused after key handling, `Update` returns it
unchanged (line 51-56). -/
lemma update_paused_fst (g : Game) (i : Input)
    (hp : (handleKeyPresses g i).paused = true) :
    (Update g i).fst = handleKeyPresses g i := by
  simp [Update, hp]

/-- When the state is running after key handling, `Update` runs the four
physics blocks in source order. -/
lemma update_running_fst (g : Game) (i : Input)
    (hp : (handleKeyPresses g i).paused = false) :
    (Update g i).fst
      = applyNudge (cornerCheck (collideWalls (integrate (handleKeyPresses g i)))) i := by
  simp [Update, hp]

/-- While the mouse button is held, the clamp of lines 97-102 bounds both
velocity components regardless of the incoming velocity. -/
lemma applyNudge_velBound (g : Game) (i : Input) (hm : i.mouseDown = true) :
    velBound (applyNudge g i) := by
  simp only [applyNudge, hm, if_true, velBound]
  constructor
  · split_ifs with h
    · rw [abs_copysign]; norm_num [logoMaxVelocity]
    · exact le_of_not_lt h
  · split_ifs with h
    · rw [abs_copysign]; norm_num [logoMaxVelocity]
    · exact le_of_not_lt h

/-- One tick never increases a velocity component beyond the bound: wall
collisions only negate components and the pointer nudge is clamped. -/
lemma velBound_step (g : Game) (i : Input) (hv : velBound g) :
    velBound (Update g i).fst := by
  by_cases hp : (handleKeyPresses g i).paused
  · rw [update_paused_fst g i hp]
    unfold velBound at hv ⊢
    simpa using hv
  · rw [update_running_fst g i (by simpa using hp)]
    by_cases hm : i.mouseDown
    · exact applyNudge_velBound _ _ hm
    · rw [applyNudge_mouse_off _ _ (by simpa using hm)]
      unfold velBound at hv ⊢
      rw [cornerCheck_velocityX, cornerCheck_velocityY]
      unfold collideWalls
      rw [collideY_velocityX, collideX_velocityX_abs, collideY_velocityY_abs,
        collideX_velocityY, integrate_velocityX, integrate_velocityY,
        handleKeyPresses_velocityX, handleKeyPresses_velocityY]
      exact hv

/-- Left-wall clamp (lines 63-66): when the integrated x is negative, the
logo is clamped to 0 and the x velocity is reflected; the right-wall check
then cannot fire because `logoWidth < screenWidth`. -/
lemma collideX_of_neg (g : Game) (h1 : g.logoX < 0) :
    (collideX g).logoX = 0 ∧ (collideX g).velocityX = -g.velocityX := by
  simp only [collideX]
  rw [if_pos h1]
  have h2 : ¬ (({ g with logoX := 0, velocityX := -g.velocityX } : Game).logoX + logoWidth
      > screenWidth) := by
    norm_num [screenWidth, logoWidth]
  rw [if_neg h2]
  exact ⟨rfl, rfl⟩

/-- When x is already within bounds, the left and right checks both pass
and the state is untouched. -/
lemma collideX_of_inRange (g : Game) (h1 : 0 ≤ g.logoX)
    (h2 : g.logoX ≤ screenWidth - logoWidth) : collideX g = g := by
  simp only [collideX]
  rw [if_neg (not_lt.mpr h1)]
  rw [if_neg (not_lt.mpr (by linarith))]

/-- When y is already within bounds, the top and bottom checks both pass
and the state is untouched. -/
lemma collideY_of_inRange (g : Game) (h1 : 0 ≤ g.logoY)
    (h2 : g.logoY ≤ screenHeight - g.logoHeight) : collideY g = g := by
  simp only [collideY]
  rw [if_neg (not_lt.mpr h1)]
  rw [if_neg (not_lt.mpr (by linarith))]

/-- The velocity bound is preserved along any run of the loop. -/
lemma velBound_runSteps (g : Game) (is : List Input) (hv : velBound g) :
    velBound (runSteps g is) := by
  induction is generalizing g with
  | nil => exact hv
  | cons i is ih => exact ih _ (velBound_step _ _ hv)

/-- Per-tick corner-counter change: unchanged, or incremented by exactly
one when the corner condition fires. -/
lemma cornerHits_step_cases (g : Game) (i : Input) :
    (Update g i).fst.cornerHits = g.cornerHits ∨
      (Update g i).fst.cornerHits = g.cornerHits + 1 := by
  by_cases hp : (handleKeyPresses g i).paused
  · left
    rw [update_paused_fst g i hp, handleKeyPresses_cornerHits]
  · rw [update_running_fst g i (by simpa using hp), applyNudge_cornerHits]
    unfold cornerCheck
    split_ifs with hc
    · right; simp [collideWalls]
    · left; simp [collideWalls]

/-- The corner counter never decreases along any run of the loop. -/
lemma cornerHits_mono_runSteps (g : Game) (is : List Input) :
    g.cornerHits ≤ (runSteps g is).cornerHits := by
  induction is generalizing g with
  | nil => exact le_refl _
  | cons i is ih =>
      refine le_trans ?_ (ih (Update g i).fst)
      rcases cornerHits_step_cases g i with h | h <;> rw [h] <;> omega

/-- C2: for every tick, if the pre-tick position is in bounds and the logo
fits the viewport, the post-tick position satisfies
`logoX ∈ [0, screenWidth - logoWidth]` and
`logoY ∈ [0, screenHeight - logoHeight]`; the in-bounds predicate is
preserved by every `Update` invocation. -/
theorem position_invariant_preserved (g : Game) (inp : Input)
    (h0 : 0 ≤ g.logoHeight) (hh : g.logoHeight ≤ screenHeight)
    (hb : inBounds g) : inBounds (Update g inp).fst := by
  by_cases hp : (handleKeyPresses g inp).paused
  · rw [update_paused_fst g inp hp]
    unfold inBounds at hb ⊢
    simpa using hb
  · rw [update_running_fst g inp (by simpa using hp)]
    have h1 : inBounds (collideWalls (integrate (handleKeyPresses g inp))) :=
      collideWalls_inBounds _ (by simpa using h0) (by simpa using hh)
    unfold inBounds at h1 ⊢
    simpa using h1

/-- Witness for C2 at a concrete state: position (100, 200), logo height
90, one tick with no input. -/
theorem position_invariant_preserved_witness :
    inBounds (Update (initGame 100 200 90) inpNone).fst :=
  position_invariant_preserved (initGame 100 200 90) inpNone
    (by norm_num [initGame])
    (by norm_num [initGame, screenHeight])
    (by norm_num [inBounds, initGame, screenWidth, screenHeight, logoWidth])

/-- C3: one tick preserves the velocity bound `|v| ≤ logoMaxVelocity`
component-wise (any input, including pointer nudges, which are clamped),
and the bound holds at every tick boundary of every run started from the
initial state, whose velocity has magnitude `logoStartVelocity`. -/
theorem velocity_bound_invariant :
    (∀ (g : Game) (i : Input), velBound g → velBound (Update g i).fst) ∧
      ∀ (x y h : ℚ) (is : List Input), velBound (runSteps (initGame x y h) is) := by
  constructor
  · exact velBound_step
  · intro x y h is
    refine velBound_runSteps _ _ ?_
    norm_num [velBound, initGame, logoStartVelocity, logoMaxVelocity]

/-- Witness for C3 at a concrete state: the initial state at (0, 0) with
logo height 90, one tick with no input. -/
theorem velocity_bound_invariant_witness :
    velBound (Update (initGame 0 0 90) inpNone).fst :=
  velocity_bound_invariant.1 (initGame 0 0 90) inpNone
    (by norm_num [velBound, initGame, logoStartVelocity, logoMaxVelocity])

/-- C4: on every single tick, from every state and for every input, the
corner counter stays equal or increases by exactly 1; consequently it never
decreases along any run. -/
theorem cornerHits_monotone :
    (∀ (g : Game) (i : Input),
        (Update g i).fst.cornerHits = g.cornerHits ∨
          (Update g i).fst.cornerHits = g.cornerHits + 1) ∧
      ∀ (g : Game) (is : List Input), g.cornerHits ≤ (runSteps g is).cornerHits :=
  ⟨cornerHits_step_cases, cornerHits_mono_runSteps⟩

/-- C10: on a running tick with the mouse button up, the tick preserves the
absolute value of each velocity component (wall bounces only negate). -/
theorem no_nudge_preserves_speed (g : Game) (inp : Input)
    (hp : (handleKeyPresses g inp).paused = false) (hm : inp.mouseDown = false) :
    |(Update g inp).fst.velocityX| = |g.velocityX| ∧
      |(Update g inp).fst.velocityY| = |g.velocityY| := by
  rw [update_running_fst g inp hp, applyNudge_mouse_off _ _ hm]
  constructor
  · rw [cornerCheck_velocityX]
    unfold collideWalls
    rw [collideY_velocityX, collideX_velocityX_abs, integrate_velocityX,
      handleKeyPresses_velocityX]
  · rw [cornerCheck_velocityY]
    unfold collideWalls
    rw [collideY_velocityY_abs, collideX_velocityY, integrate_velocityY,
      handleKeyPresses_velocityY]

/-- Witness for C10 at a concrete state: the initial state at (40, 40),
one tick with no input. -/
theorem no_nudge_preserves_speed_witness :
    |(Update (initGame 40 40 90) inpNone).fst.velocityX| = |(initGame 40 40 90).velocityX| ∧
      |(Update (initGame 40 40 90) inpNone).fst.velocityY| = |(initGame 40 40 90).velocityY| :=
  no_nudge_preserves_speed (initGame 40 40 90) inpNone (by rfl) (by rfl)

/-- C5: the session state machine.  (1) From Running, a fresh Escape press
(down now, up-flag last tick) with no fresh C press yields Paused.  (2) From
Paused, a fresh Escape press yields Running.  (3) From Paused with Escape
not freshly pressed, a fresh C press yields Running.  (4) From Paused with
Escape not freshly pressed, Q merely being down (raw state) sets
`terminated` on that check.  (5) A held Escape key (down now and down-flag
set) never toggles pause again. -/
theorem session_transitions (g : Game) (inp : Input) :
    (g.paused = false → inp.escDown = true → g.keyEsc = false → inp.cDown = false →
        (handleKeyPresses g inp).paused = true) ∧
      (g.paused = true → inp.escDown = true → g.keyEsc = false →
          (handleKeyPresses g inp).paused = false) ∧
      (g.paused = true → (inp.escDown = true → g.keyEsc = true) → inp.cDown = true →
          g.keyC = false → (handleKeyPresses g inp).paused = false) ∧
      (g.paused = true → (inp.escDown = true → g.keyEsc = true) → inp.qDown = true →
          (handleKeyPresses g inp).terminated = true) ∧
      (inp.escDown = true → g.keyEsc = true → (inp.cDown = true → g.keyC = true) →
          (handleKeyPresses g inp).paused = g.paused) := by
  refine ⟨?_, ?_, ?_, ?_, ?_⟩
  · intro hp he hk hc
    simp [handleKeyPresses, handleEscape, handleContinue, handleQuit, hp, he, hk, hc,
      apply_ite Game.paused]
  · intro hp he hk
    simp [handleKeyPresses, handleEscape, handleContinue, handleQuit, hp, he, hk,
      apply_ite Game.paused]
  · intro hp hesc hc hkc
    by_cases he : inp.escDown
    · have hk := hesc (by simpa using he)
      simp [handleKeyPresses, handleEscape, handleContinue, handleQuit, hp, he, hk, hc, hkc,
        apply_ite Game.paused]
    · simp only [Bool.not_eq_true] at he
      simp [handleKeyPresses, handleEscape, handleContinue, handleQuit, hp, he, hc, hkc,
        apply_ite Game.paused]
  · intro hp hesc hq
    by_cases he : inp.escDown
    · have hk := hesc (by simpa using he)
      simp [handleKeyPresses, handleEscape, handleContinue, handleQuit, hp, he, hk, hq,
        apply_ite Game.terminated]
    · simp only [Bool.not_eq_true] at he
      simp [handleKeyPresses, handleEscape, handleContinue, handleQuit, hp, he, hq,
        apply_ite Game.terminated]
  · intro he hk hcq
    by_cases hc : inp.cDown
    · have hkc := hcq (by simpa using hc)
      simp [handleKeyPresses, handleEscape, handleContinue, handleQuit, he, hk, hc, hkc,
        apply_ite Game.paused]
    · simp only [Bool.not_eq_true] at hc
      simp [handleKeyPresses, handleEscape, handleContinue, handleQuit, he, hk, hc,
        apply_ite Game.paused]

/-- Witness for C5: from the running initial state, a fresh Escape press
pauses the session. -/
theorem session_transitions_witness :
    (handleKeyPresses (initGame 5 5 90) inpEsc).paused = true :=
  (session_transitions (initGame 5 5 90) inpEsc).1 rfl rfl rfl rfl

/-- C6: while the session is paused, any number of ticks whose inputs keep
it paused leave position and velocity untouched. -/
theorem pause_freeze (g : Game) (is : List Input) (hp : g.paused = true)
    (hk : keepsPaused g is = true) :
    (runSteps g is).logoX = g.logoX ∧ (runSteps g is).logoY = g.logoY ∧
      (runSteps g is).velocityX = g.velocityX ∧
      (runSteps g is).velocityY = g.velocityY := by
  induction is generalizing g with
  | nil => exact ⟨rfl, rfl, rfl, rfl⟩
  | cons i is ih =>
      simp only [keepsPaused, Bool.and_eq_true] at hk
      obtain ⟨h1, h2⟩ := hk
      have hfst : (Update g i).fst = handleKeyPresses g i := update_paused_fst g i h1
      have hpn : (Update g i).fst.paused = true := by rw [hfst]; exact h1
      obtain ⟨e1, e2, e3, e4⟩ := ih (Update g i).fst hpn h2
      refine ⟨?_, ?_, ?_, ?_⟩
      · show (runSteps (Update g i).fst is).logoX = g.logoX
        rw [e1, hfst, handleKeyPresses_logoX]
      · show (runSteps (Update g i).fst is).logoY = g.logoY
        rw [e2, hfst, handleKeyPresses_logoY]
      · show (runSteps (Update g i).fst is).velocityX = g.velocityX
        rw [e3, hfst, handleKeyPresses_velocityX]
      · show (runSteps (Update g i).fst is).velocityY = g.velocityY
        rw [e4, hfst, handleKeyPresses_velocityY]

/-- Witness for C6: two empty-input ticks on a paused state change nothing. -/
theorem pause_freeze_witness :
    (runSteps pausedDemo [inpNone, inpNone]).logoX = pausedDemo.logoX ∧
      (runSteps pausedDemo [inpNone, inpNone]).logoY = pausedDemo.logoY ∧
      (runSteps pausedDemo [inpNone, inpNone]).velocityX = pausedDemo.velocityX ∧
      (runSteps pausedDemo [inpNone, inpNone]).velocityY = pausedDemo.velocityY :=
  pause_freeze pausedDemo [inpNone, inpNone] rfl rfl

/-- C7: the corner check declares a hit at post-collision position (0, 0)
for every logo height and increments the counter by one; it declares no hit
at (400, 300); and on every state inside the tolerance band it increments
the counter — the check runs on every tick, so lingering in the band keeps
incrementing. -/
theorem corner_detection :
    (∀ g : Game, g.logoX = 0 → g.logoY = 0 →
        (cornerCheck g).hitCorner = true ∧ (cornerCheck g).cornerHits = g.cornerHits + 1) ∧
      (∀ g : Game, g.logoX = 400 → g.logoY = 300 →
          (cornerCheck g).hitCorner = g.hitCorner ∧
            (cornerCheck g).cornerHits = g.cornerHits) ∧
      ∀ g : Game, inCornerBand g.logoX g.logoY g.logoHeight →
          (cornerCheck g).cornerHits = g.cornerHits + 1 ∧ (cornerCheck g).hitCorner = true := by
  refine ⟨?_, ?_, ?_⟩
  · intro g hx hy
    have hband : inCornerBand g.logoX g.logoY g.logoHeight := by
      rw [hx, hy]
      exact ⟨Or.inl (by norm_num [cornerTolerance]), Or.inl (by norm_num [cornerTolerance])⟩
    unfold cornerCheck
    rw [if_pos hband]
    exact ⟨rfl, rfl⟩
  · intro g hx hy
    have hband : ¬ inCornerBand g.logoX g.logoY g.logoHeight := by
      rw [hx, hy]
      intro hcontra
      rcases hcontra.1 with h | h <;>
        norm_num [cornerTolerance, screenWidth, logoWidth] at h
    unfold cornerCheck
    rw [if_neg hband]
    exact ⟨rfl, rfl⟩
  · intro g hband
    unfold cornerCheck
    rw [if_pos hband]
    exact ⟨rfl, rfl⟩

/-- Witness for C7 at logo height 37: a hit at (0, 0) with the counter
incremented from 0 to 1. -/
theorem corner_detection_witness :
    (cornerCheck (initGame 0 0 37)).hitCorner = true ∧
      (cornerCheck (initGame 0 0 37)).cornerHits = (initGame 0 0 37).cornerHits + 1 :=
  corner_detection.1 (initGame 0 0 37) rfl rfl

/-- C8: a running tick with no pointer input on a state with `logoX = 0`
and `velocityX = -2` clamps x back to 0 and reflects the x velocity to 2. -/
theorem wall_bounce_left (g : Game) (inp : Input) (hx : g.logoX = 0)
    (hv : g.velocityX = -2) (hp : (handleKeyPresses g inp).paused = false)
    (hm : inp.mouseDown = false) :
    (Update g inp).fst.logoX = 0 ∧ (Update g inp).fst.velocityX = 2 := by
  rw [update_running_fst g inp hp, applyNudge_mouse_off _ _ hm]
  have hneg : (integrate (handleKeyPresses g inp)).logoX < 0 := by
    rw [integrate_logoX, handleKeyPresses_logoX, handleKeyPresses_velocityX, hx, hv]
    norm_num
  obtain ⟨h1, h2⟩ := collideX_of_neg _ hneg
  constructor
  · rw [cornerCheck_logoX]
    unfold collideWalls
    rw [collideY_logoX, h1]
  · rw [cornerCheck_velocityX]
    unfold collideWalls
    rw [collideY_velocityX, h2, integrate_velocityX, handleKeyPresses_velocityX, hv]
    norm_num

/-- Witness for C8 on the concrete left-wall state. -/
theorem wall_bounce_left_witness :
    (Update leftWallDemo inpNone).fst.logoX = 0 ∧
      (Update leftWallDemo inpNone).fst.velocityX = 2 :=
  wall_bounce_left leftWallDemo inpNone rfl rfl (by rfl) rfl

/-- C9 as stated is false: a zero-velocity state is not always left in
place — at the out-of-bounds rest state (-5, 100) one no-input tick clamps
`logoX` from -5 to 0. -/
theorem advance_moves_rest_state :
    outDemo.velocityX = 0 ∧ outDemo.velocityY = 0 ∧
      (Update outDemo inpNone).fst.logoX ≠ outDemo.logoX := by
  refine ⟨rfl, rfl, ?_⟩
  have hp : (handleKeyPresses outDemo inpNone).paused = false := rfl
  rw [update_running_fst _ _ hp, applyNudge_mouse_off _ _ rfl, cornerCheck_logoX]
  unfold collideWalls
  rw [collideY_logoX]
  have hneg : (integrate (handleKeyPresses outDemo inpNone)).logoX < 0 := by
    rw [integrate_logoX, handleKeyPresses_logoX, handleKeyPresses_velocityX]
    norm_num [outDemo, initGame]
  rw [(collideX_of_neg _ hneg).1]
  norm_num [outDemo, initGame]

/-- C9 amended: for every state with zero velocity whose position is in
bounds, a tick with no pointer input leaves position and velocity
unchanged. -/
theorem advance_zero_velocity_fixed (g : Game) (inp : Input)
    (hvx : g.velocityX = 0) (hvy : g.velocityY = 0) (hb : inBounds g)
    (hm : inp.mouseDown = false) :
    (Update g inp).fst.logoX = g.logoX ∧ (Update g inp).fst.logoY = g.logoY ∧
      (Update g inp).fst.velocityX = g.velocityX ∧
      (Update g inp).fst.velocityY = g.velocityY := by
  by_cases hp : (handleKeyPresses g inp).paused
  · rw [update_paused_fst g inp hp]
    exact ⟨handleKeyPresses_logoX g inp, handleKeyPresses_logoY g inp,
      handleKeyPresses_velocityX g inp, handleKeyPresses_velocityY g inp⟩
  · rw [update_running_fst g inp (by simpa using hp), applyNudge_mouse_off _ _ hm]
    have hkx : (integrate (handleKeyPresses g inp)).logoX = g.logoX := by
      rw [integrate_logoX, handleKeyPresses_logoX, handleKeyPresses_velocityX, hvx, add_zero]
    have hky : (integrate (handleKeyPresses g inp)).logoY = g.logoY := by
      rw [integrate_logoY, handleKeyPresses_logoY, handleKeyPresses_velocityY, hvy, add_zero]
    have e1 : collideX (integrate (handleKeyPresses g inp))
        = integrate (handleKeyPresses g inp) :=
      collideX_of_inRange _ (by rw [hkx]; exact hb.1) (by rw [hkx]; exact hb.2.1)
    have e2 : collideY (integrate (handleKeyPresses g inp))
        = integrate (handleKeyPresses g inp) :=
      collideY_of_inRange _ (by rw [hky]; exact hb.2.2.1)
        (by rw [hky, integrate_logoHeight, handleKeyPresses_logoHeight]; exact hb.2.2.2)
    unfold collideWalls
    rw [e1, e2]
    refine ⟨?_, ?_, ?_, ?_⟩
    · rw [cornerCheck_logoX, hkx]
    · rw [cornerCheck_logoY, hky]
    · rw [cornerCheck_velocityX, integrate_velocityX, handleKeyPresses_velocityX]
    · rw [cornerCheck_velocityY, integrate_velocityY, handleKeyPresses_velocityY]

/-- Witness for the amended C9 on the in-bounds rest state (10, 20). -/
theorem advance_zero_velocity_fixed_witness :
    (Update restDemo inpNone).fst.logoX = restDemo.logoX ∧
      (Update restDemo inpNone).fst.logoY = restDemo.logoY ∧
      (Update restDemo inpNone).fst.velocityX = restDemo.velocityX ∧
      (Update restDemo inpNone).fst.velocityY = restDemo.velocityY :=
  advance_zero_velocity_fixed restDemo inpNone rfl rfl
    (by norm_num [inBounds, restDemo, initGame, screenWidth, screenHeight, logoWidth]) rfl

/-- C1 fails on the code: on a paused tick with C and Q both freshly down,
`handleKeyPresses` first clears `paused` (C handler) and then sets
`terminated` (Q handler, still inside the stale `if g.paused` block), so
`Update` resumes the game instead of terminating: that tick returns `nil`,
the next tick also returns `nil`, and the logo moves (102 to 104) on a tick
whose session state is terminated. -/
theorem terminated_not_absorbing :
    (Update pausedDemo inpCQ).fst.terminated = true ∧
      (Update pausedDemo inpCQ).fst.paused = false ∧
      (Update pausedDemo inpCQ).snd = false ∧
      (Update (Update pausedDemo inpCQ).fst inpNone).snd = false ∧
      (Update (Update pausedDemo inpCQ).fst inpNone).fst.terminated = true ∧
      (Update pausedDemo inpCQ).fst.logoX = 102 ∧
      (Update (Update pausedDemo inpCQ).fst inpNone).fst.logoX = 104 := by
  norm_num [Update, handleKeyPresses, handleEscape, handleContinue, handleQuit, integrate,
    collideX, collideY, collideWalls, cornerCheck, applyNudge, inCornerBand, copysign,
    screenWidth, screenHeight, logoWidth, logoStartVelocity, logoMaxVelocity,
    cornerTolerance, nudgeAmount, initGame, pausedDemo, inpCQ, inpNone]
